import Mathlib

/-!
Verification of `scripts/database/create-table-python.py`, a provisioning
script that connects to a MySQL database, issues one
`CREATE TABLE IF NOT EXISTS access_logs` DDL statement, commits, verifies
the table's existence via `SHOW TABLES LIKE`, prints the column listing
from `DESCRIBE`, closes the cursor and connection, and exits.

The script is embedded shallowly: every external database call's outcome is
a field of an environment `DBEnv` (success, or a raised Python exception),
and `runScript` replays the script's control flow over such an environment,
producing the printed lines, the ordered trace of external actions, and the
process exit code.  Python's exception-class hierarchy is modelled
explicitly: `mysql.connector.Error` and generic exceptions derive
`Exception`, while `SystemExit` (raised by `sys.exit`) derives
`BaseException` only, so the script's two `except` clauses do not catch it.

A second layer models the MySQL server's semantics for the one DDL
statement (conditional creation, foreign-key check against `pump_users`)
over an explicit catalog state `DBState`, to settle the idempotency and
schema-listing claims.
-/

/-- Python exception values that can escape the script's `try` body:
a `mysql.connector.Error` with its message, any other `Exception` with its
message, or a `SystemExit` carrying the requested process exit code
(raised by `sys.exit`). -/
inductive PyExc where
  | mysqlError (msg : String)
  | otherExc (msg : String)
  | systemExit (code : Nat)
deriving DecidableEq, Repr

/-- Whether `except mysql.connector.Error as err:` catches the exception:
only instances of the client's `Error` class. -/
def catchesMySQLError : PyExc → Bool
  | .mysqlError _ => true
  | .otherExc _ => false
  | .systemExit _ => false

/-- Whether `except Exception as e:` catches the exception.  Per Python's
class hierarchy, `mysql.connector.Error` and ordinary exceptions derive
`Exception`, while `SystemExit` derives `BaseException` directly, so the
broad handler does not intercept `sys.exit`. -/
def catchesException : PyExc → Bool
  | .mysqlError _ => true
  | .otherExc _ => true
  | .systemExit _ => false

/-- The message interpolated into the handler's printed line (`str(err)` /
`str(e)` in the f-strings). -/
def excMessage : PyExc → String
  | .mysqlError m => m
  | .otherExc m => m
  | .systemExit c => toString c

/-- Process exit status when an exception escapes uncaught: `SystemExit c`
terminates the process with status `c`; any other uncaught exception makes
the interpreter print a traceback and exit with status 1. -/
def uncaughtExitCode : PyExc → Nat
  | .systemExit c => c
  | .mysqlError _ => 1
  | .otherExc _ => 1

/-- The external calls the script can make, in source order. -/
inductive ScriptStep where
  | connect
  | mkCursor
  | executeCreateTable
  | commit
  | executeShowTables
  | fetchallShowTables
  | executeDescribe
  | fetchallDescribe
  | closeCursor
  | closeConnection
deriving DecidableEq, Repr

/-- An exception one of the external library calls may raise.  Python
library code raises subclasses of `Exception` — either the client's
`mysql.connector.Error` or some other exception class — never
`SystemExit`, which only `sys.exit` raises. -/
inductive LibExc where
  | mysqlError (msg : String)
  | otherExc (msg : String)
deriving DecidableEq, Repr

/-- The Python exception value a raising library call puts in flight. -/
def LibExc.toPyExc : LibExc → PyExc
  | .mysqlError m => .mysqlError m
  | .otherExc m => .otherExc m

/-- One row of the `DESCRIBE access_logs` result as the script reads it:
`f0` is `col[0]` (the column name), `f1` is `col[1]` (the type), `f2` is
`col[2]` (the `Null` flag, the string `NO` or `YES`). -/
structure DescRow where
  f0 : String
  f1 : String
  f2 : String
deriving DecidableEq, Repr

/-- Outcome of each external call the script performs, fixed before the run:
`none` / `Except.ok` means the call returns normally, `some e` /
`Except.error e` means it raises the Python exception `e`.  The two `close`
calls release local resources and are modelled as non-raising. -/
structure DBEnv where
  connect : Option LibExc
  mkCursor : Option LibExc
  executeCreate : Option LibExc
  commit : Option LibExc
  executeShow : Option LibExc
  fetchShow : Except LibExc (List String)
  executeDescribe : Option LibExc
  fetchDescribe : Except LibExc (List DescRow)
deriving Repr

/-- The nullability text the script prints for a `DESCRIBE` row:
`'NOT NULL' if col[2] == 'NO' else 'NULL'`. -/
def nullFlagText (flag : String) : String :=
  if flag = "NO" then "NOT NULL" else "NULL"

/-- The line printed for one `DESCRIBE` row:
`f"  - {col[0]}: {col[1]} {...}"`. -/
def descLine (col : DescRow) : String :=
  "  - " ++ col.f0 ++ ": " ++ col.f1 ++ " " ++ nullFlagText col.f2

/-- What escapes the script's `try` body: the lines it printed, the ordered
trace of external calls it made, and the exception terminating it (every
path ends in an exception, since the success path ends in `sys.exit(0)`,
the verification-failure path in `sys.exit(1)`). -/
structure BodyResult where
  output : List String
  trace : List ScriptStep
  exc : PyExc
deriving Repr

/-- The complete call sequence of a fully successful run, in source order. -/
def fullTrace : List ScriptStep :=
  [.connect, .mkCursor, .executeCreateTable, .commit, .executeShowTables,
   .fetchallShowTables, .executeDescribe, .fetchallDescribe,
   .closeCursor, .closeConnection]

/-- The script's `try` body (source lines 11-73), replayed over the
environment: connect, make a cursor, execute the DDL, commit, run
`SHOW TABLES LIKE 'access_logs'` and fetch the rows; on a non-empty result
print the verification line, run `DESCRIBE access_logs`, print the column
listing, close the cursor and the connection, print the done line and call
`sys.exit(0)`; on an empty result print the error line and call
`sys.exit(1)`. -/
def tryBody (env : DBEnv) : BodyResult :=
  match env.connect with
  | some e => { output := [], trace := [.connect], exc := e.toPyExc }
  | none =>
  let o1 := ["✅ Connected successfully!"]
  match env.mkCursor with
  | some e => { output := o1, trace := [.connect, .mkCursor], exc := e.toPyExc }
  | none =>
  let o2 := o1 ++ ["📝 Creating access_logs table..."]
  match env.executeCreate with
  | some e => { output := o2, trace := [.connect, .mkCursor, .executeCreateTable], exc := e.toPyExc }
  | none =>
  match env.commit with
  | some e => { output := o2,
                trace := [.connect, .mkCursor, .executeCreateTable, .commit], exc := e.toPyExc }
  | none =>
  let o3 := o2 ++ ["✅ Table created successfully!"]
  match env.executeShow with
  | some e => { output := o3,
                trace := [.connect, .mkCursor, .executeCreateTable, .commit,
                          .executeShowTables], exc := e.toPyExc }
  | none =>
  match env.fetchShow with
  | .error e => { output := o3,
                  trace := [.connect, .mkCursor, .executeCreateTable, .commit,
                            .executeShowTables, .fetchallShowTables], exc := e.toPyExc }
  | .ok result =>
  if result.isEmpty then
    { output := o3 ++ ["❌ ERROR: Table not found after creation!"],
      trace := [.connect, .mkCursor, .executeCreateTable, .commit,
                .executeShowTables, .fetchallShowTables],
      exc := .systemExit 1 }
  else
  let o4 := o3 ++ ["📊 Verification: Table exists! Found " ++ toString result.length
                    ++ " match(es)"]
  match env.executeDescribe with
  | some e => { output := o4,
                trace := [.connect, .mkCursor, .executeCreateTable, .commit,
                          .executeShowTables, .fetchallShowTables, .executeDescribe],
                exc := e.toPyExc }
  | none =>
  match env.fetchDescribe with
  | .error e => { output := o4,
                  trace := [.connect, .mkCursor, .executeCreateTable, .commit,
                            .executeShowTables, .fetchallShowTables, .executeDescribe,
                            .fetchallDescribe], exc := e.toPyExc }
  | .ok columns =>
  let o5 := o4 ++ ["\n📋 Table structure:"] ++ columns.map descLine
  { output := o5 ++ ["\n✨ Done! The access_logs table is now ready."],
    trace := fullTrace,
    exc := .systemExit 0 }

/-- Everything the process observably does: the printed lines (standard
output, in order), the ordered trace of external calls, and the process
exit code. -/
structure Outcome where
  output : List String
  trace : List ScriptStep
  exitCode : Nat
deriving Repr

/-- The initial print (source line 9) and the two top-level handlers
(lines 75-80) around the finished `try` body.  A `mysql.connector.Error`
prints the database-specific line and exits 1; any other `Exception`
prints the generic line and exits 1; `SystemExit` is caught by neither
handler and terminates the process with its code. -/
def handleTop (b : BodyResult) : Outcome :=
  let pre := ["🔧 Connecting to production database..."]
  if catchesMySQLError b.exc then
    { output := pre ++ b.output ++ ["❌ MySQL Error: " ++ excMessage b.exc],
      trace := b.trace, exitCode := 1 }
  else if catchesException b.exc then
    { output := pre ++ b.output ++ ["💥 Error: " ++ excMessage b.exc],
      trace := b.trace, exitCode := 1 }
  else
    { output := pre ++ b.output, trace := b.trace, exitCode := uncaughtExitCode b.exc }

/-- The whole script as a function of the call environment. -/
def runScript (env : DBEnv) : Outcome :=
  handleTop (tryBody env)

/-- All external calls succeed and the verification query returns a
non-empty result: the condition for the script's fully successful path. -/
def allStepsSucceed (env : DBEnv) : Bool :=
  env.connect.isNone && env.mkCursor.isNone && env.executeCreate.isNone &&
  env.commit.isNone && env.executeShow.isNone &&
  (match env.fetchShow with | .ok rows => !rows.isEmpty | .error _ => false) &&
  env.executeDescribe.isNone &&
  (match env.fetchDescribe with | .ok _ => true | .error _ => false)

/-- A concrete environment where every call succeeds, for witnesses. -/
def envOk : DBEnv :=
  { connect := none, mkCursor := none, executeCreate := none, commit := none,
    executeShow := none, fetchShow := .ok ["access_logs"],
    executeDescribe := none,
    fetchDescribe := .ok [⟨"id", "int", "NO"⟩, ⟨"ip_address", "varchar(45)", "YES"⟩] }



/-- The DDL statement the script executes, verbatim (source lines 27-44). -/
def create_table_sql : String :=
  "
    CREATE TABLE IF NOT EXISTS access_logs (
      id INT AUTO_INCREMENT PRIMARY KEY,
      user_id INT NOT NULL,
      access_type VARCHAR(50) NOT NULL COMMENT 'initial_purchase, renewal, research_access, etc.',
      payment_amount_cents INT DEFAULT 0 COMMENT 'Payment amount in cents (999 = $9.99)',
      ip_address VARCHAR(45) DEFAULT NULL COMMENT 'IPv4 or IPv6 address',
      user_agent TEXT DEFAULT NULL COMMENT 'Browser user agent string',
      created_at TIMESTAMP DEFAULT CURRENT_TIMESTAMP,

      INDEX idx_user_id (user_id),
      INDEX idx_access_type (access_type),
      INDEX idx_created_at (created_at),

      FOREIGN KEY (user_id) REFERENCES pump_users(id) ON DELETE CASCADE
    ) ENGINE=InnoDB DEFAULT CHARSET=utf8mb4 COLLATE=utf8mb4_unicode_ci
    COMMENT='Tracks user access events and payment history for PumpDrive'
    "

/-- One column of a table as the server's catalog records it: its name, the
type string `DESCRIBE` renders for it, and whether its `Null` flag is `NO`. -/
structure ColumnDef where
  name : String
  sqlType : String
  notNull : Bool
deriving DecidableEq, Repr

/-- A table in the catalog: its column list and its stored rows. -/
structure TableDef where
  columns : List ColumnDef
  rows : List (List String)
deriving DecidableEq, Repr

/-- The server's catalog state: the tables of the connected database, as an
association list from table name to definition. -/
structure DBState where
  tables : List (String × TableDef)
deriving DecidableEq, Repr

/-- Whether a table of the given name exists in the catalog. -/
def hasTable (s : DBState) (n : String) : Bool :=
  s.tables.any (fun p => p.1 = n)

/-- Look up a table's definition by name. -/
def lookupTable (s : DBState) (n : String) : Option TableDef :=
  (s.tables.find? (fun p => p.1 = n)).map Prod.snd

/-- The columns of `access_logs` as declared by `create_table_sql`, in
declaration order, with the `Null` flag each gets in the catalog:
`PRIMARY KEY` and explicit `NOT NULL` make a column required; the other
columns (including `created_at TIMESTAMP DEFAULT CURRENT_TIMESTAMP`, under
MySQL 8's default `explicit_defaults_for_timestamp = ON`) are nullable. -/
def accessLogsColumns : List ColumnDef :=
  [⟨"id", "int", true⟩,
   ⟨"user_id", "int", true⟩,
   ⟨"access_type", "varchar(50)", true⟩,
   ⟨"payment_amount_cents", "int", false⟩,
   ⟨"ip_address", "varchar(45)", false⟩,
   ⟨"user_agent", "text", false⟩,
   ⟨"created_at", "timestamp", false⟩]

/-- The server's semantics for executing `create_table_sql` on a catalog
state: because of `IF NOT EXISTS`, the statement is a no-op when
`access_logs` already exists; otherwise it creates the empty table with
`accessLogsColumns`, provided the foreign-key target `pump_users` exists,
and raises a `mysql.connector.Error` when it does not. -/
def execCreateAccessLogs (s : DBState) : Except LibExc DBState :=
  if hasTable s "access_logs" then .ok s
  else if hasTable s "pump_users" then
    .ok ⟨s.tables ++ [("access_logs", ⟨accessLogsColumns, []⟩)]⟩
  else
    .error (.mysqlError "1824 (HY000): Failed to open the referenced table 'pump_users'")

/-- The rows `SHOW TABLES LIKE n` returns: the table's name when it
exists, nothing otherwise. -/
def showTablesLike (s : DBState) (n : String) : List String :=
  if hasTable s n then [n] else []

/-- The rows `DESCRIBE n` returns, one per column: name, rendered type,
and `Null` flag (`NO` for a required column, `YES` otherwise). -/
def describeRows (s : DBState) (n : String) : List DescRow :=
  match lookupTable s n with
  | some t => t.columns.map (fun c => ⟨c.name, c.sqlType, if c.notNull then "NO" else "YES"⟩)
  | none => []

/-- The catalog state after the script's DDL statement ran (unchanged when
the statement raised). -/
def dbStateAfter (s : DBState) : DBState :=
  match execCreateAccessLogs s with
  | .ok t => t
  | .error _ => s

/-- The call environment a reachable, healthy server presents to the
script when its catalog is in state `s`: connection and queries succeed,
the DDL statement follows `execCreateAccessLogs`, and the verification and
listing queries read the catalog state after the DDL. -/
def dbEnv (s : DBState) : DBEnv :=
  { connect := none, mkCursor := none,
    executeCreate :=
      match execCreateAccessLogs s with
      | .ok _ => none
      | .error e => some e,
    commit := none, executeShow := none,
    fetchShow := .ok (showTablesLike (dbStateAfter s) "access_logs"),
    executeDescribe := none,
    fetchDescribe := .ok (describeRows (dbStateAfter s) "access_logs") }

/-- One run of the script against a server in catalog state `s`: the
process outcome and the catalog state it leaves behind. -/
def runOnDB (s : DBState) : Outcome × DBState :=
  (runScript (dbEnv s), dbStateAfter s)

/-- The production database before provisioning: `pump_users` exists (the
foreign-key target), `access_logs` does not. -/
def initialDB : DBState :=
  ⟨[("pump_users", ⟨[⟨"id", "int", true⟩], []⟩)]⟩

/-- A database where `access_logs` already exists next to `pump_users`. -/
def dbProvisioned : DBState :=
  ⟨[("pump_users", ⟨[⟨"id", "int", true⟩], []⟩),
    ("access_logs", ⟨accessLogsColumns, []⟩)]⟩

/-- A concrete environment where every call succeeds but the verification
query `SHOW TABLES LIKE` returns no rows, for witnesses. -/
def envEmptyShow : DBEnv :=
  { connect := none, mkCursor := none, executeCreate := none, commit := none,
    executeShow := none, fetchShow := .ok [], executeDescribe := none,
    fetchDescribe := .ok [] }

/-- A concrete environment where the connection attempt raises the client's
`mysql.connector.Error` (invalid credentials), for witnesses. -/
def envBadCreds : DBEnv :=
  { connect := some (.mysqlError "1045 (28000): Access denied for user tshlaadmin"),
    mkCursor := none, executeCreate := none, commit := none,
    executeShow := none, fetchShow := .ok [], executeDescribe := none,
    fetchDescribe := .ok [] }




/-- When the `try` body ends in a library exception, the handlers print a
line and the process exits 1; the call trace is the body's. -/
lemma handleTop_lib (b : BodyResult) (e : LibExc) (h : b.exc = e.toPyExc) :
    (handleTop b).exitCode = 1 ∧ (handleTop b).trace = b.trace := by
  cases e <;>
    simp [handleTop, h, LibExc.toPyExc, catchesMySQLError, catchesException]

/-- When the `try` body ends in `SystemExit c`, no handler fires and the
process exits with `c`. -/
lemma handleTop_exit (b : BodyResult) (c : Nat) (h : b.exc = PyExc.systemExit c) :
    handleTop b = ⟨["🔧 Connecting to production database..."] ++ b.output, b.trace, c⟩ := by
  simp [handleTop, h, catchesMySQLError, catchesException, uncaughtExitCode]

/-- Case analysis over the environment: either every call succeeds and the
verification query is non-empty — then the script exits 0 having performed
exactly `fullTrace` — or some call fails or the verification is empty —
then the script exits 1 after a proper prefix of `fullTrace` that reaches
neither `close` call. -/
lemma runScript_outcome_cases (env : DBEnv) :
    (allStepsSucceed env = true ∧ (runScript env).exitCode = 0 ∧
      (runScript env).trace = fullTrace) ∨
    (allStepsSucceed env = false ∧ (runScript env).exitCode = 1 ∧
      (runScript env).trace <+: fullTrace ∧
      ScriptStep.closeCursor ∉ (runScript env).trace ∧
      ScriptStep.closeConnection ∉ (runScript env).trace) := by
  obtain ⟨c, cu, ec, cm, es, fs, ed, fd⟩ := env
  cases c with
  | some e =>
    refine Or.inr ?_
    cases e <;>
      simp [runScript, tryBody, handleTop, LibExc.toPyExc, catchesMySQLError,
        catchesException, allStepsSucceed, fullTrace, List.cons_prefix_cons]
  | none =>
  cases cu with
  | some e =>
    refine Or.inr ?_
    cases e <;>
      simp [runScript, tryBody, handleTop, LibExc.toPyExc, catchesMySQLError,
        catchesException, allStepsSucceed, fullTrace, List.cons_prefix_cons]
  | none =>
  cases ec with
  | some e =>
    refine Or.inr ?_
    cases e <;>
      simp [runScript, tryBody, handleTop, LibExc.toPyExc, catchesMySQLError,
        catchesException, allStepsSucceed, fullTrace, List.cons_prefix_cons]
  | none =>
  cases cm with
  | some e =>
    refine Or.inr ?_
    cases e <;>
      simp [runScript, tryBody, handleTop, LibExc.toPyExc, catchesMySQLError,
        catchesException, allStepsSucceed, fullTrace, List.cons_prefix_cons]
  | none =>
  cases es with
  | some e =>
    refine Or.inr ?_
    cases e <;>
      simp [runScript, tryBody, handleTop, LibExc.toPyExc, catchesMySQLError,
        catchesException, allStepsSucceed, fullTrace, List.cons_prefix_cons]
  | none =>
  cases fs with
  | error e =>
    refine Or.inr ?_
    cases e <;>
      simp [runScript, tryBody, handleTop, LibExc.toPyExc, catchesMySQLError,
        catchesException, allStepsSucceed, fullTrace, List.cons_prefix_cons]
  | ok result =>
  cases hr : result.isEmpty with
  | true =>
    refine Or.inr ?_
    simp [runScript, tryBody, handleTop, hr, catchesMySQLError,
      catchesException, uncaughtExitCode, allStepsSucceed, fullTrace,
      List.cons_prefix_cons]
  | false =>
  cases ed with
  | some e =>
    refine Or.inr ?_
    cases e <;>
      simp [runScript, tryBody, handleTop, hr, LibExc.toPyExc, catchesMySQLError,
        catchesException, allStepsSucceed, fullTrace, List.cons_prefix_cons]
  | none =>
  cases fd with
  | error e =>
    refine Or.inr ?_
    cases e <;>
      simp [runScript, tryBody, handleTop, hr, LibExc.toPyExc, catchesMySQLError,
        catchesException, allStepsSucceed, fullTrace, List.cons_prefix_cons]
  | ok columns =>
    refine Or.inl ?_
    simp [runScript, tryBody, handleTop, hr, catchesMySQLError,
      catchesException, uncaughtExitCode, allStepsSucceed]

/-- Appending a fresh table makes `hasTable` find it. -/
lemma hasTable_append_self (s : DBState) (n : String) (t : TableDef) :
    hasTable ⟨s.tables ++ [(n, t)]⟩ n = true := by
  simp [hasTable]

/-- Looking up a table just appended to a catalog that did not contain one
of that name finds exactly the appended definition. -/
lemma lookupTable_append_self (s : DBState) (n : String) (t : TableDef)
    (h : hasTable s n = false) :
    lookupTable ⟨s.tables ++ [(n, t)]⟩ n = some t := by
  have hfind : s.tables.find? (fun p => p.1 = n) = none := by
    rw [List.find?_eq_none]
    intro x hx
    simp [hasTable] at h
    simpa using h x.1 x.2 hx
  simp [lookupTable, List.find?_append, hfind]

/-- Against a database that already has `access_logs`, the DDL is a no-op
and the whole run exits 0. -/
lemma runOnDB_hasTable (s : DBState) (h : hasTable s "access_logs" = true) :
    execCreateAccessLogs s = Except.ok s ∧ (runOnDB s).2 = s ∧
    (runOnDB s).1.exitCode = 0 := by
  have hexec : execCreateAccessLogs s = Except.ok s := by
    simp [execCreateAccessLogs, h]
  have hafter : dbStateAfter s = s := by
    simp [dbStateAfter, hexec]
  have hsteps : allStepsSucceed (dbEnv s) = true := by
    simp [allStepsSucceed, dbEnv, hexec, hafter, showTablesLike, h]
  refine ⟨hexec, by simp [runOnDB, hafter], ?_⟩
  rcases runScript_outcome_cases (dbEnv s) with ⟨_, h0, _⟩ | ⟨hfalse, _⟩
  · exact h0
  · rw [hsteps] at hfalse
    cases hfalse

/-- A run that exits 0 leaves a catalog in which `access_logs` exists. -/
lemma runOnDB_exit0_hasTable (s : DBState) (h : (runOnDB s).1.exitCode = 0) :
    hasTable (dbStateAfter s) "access_logs" = true := by
  rcases runScript_outcome_cases (dbEnv s) with ⟨hsteps, _, _⟩ | ⟨_, h1, _⟩
  · by_cases hh : hasTable (dbStateAfter s) "access_logs"
    · exact hh
    · simp [allStepsSucceed, dbEnv, showTablesLike, hh] at hsteps
  · have : (runOnDB s).1.exitCode = 1 := h1
    rw [h] at this
    cases this

/-- C1: Every execution of the script terminates the process with exit
code 0 or exit code 1, and the code is 0 exactly when the connection, the
DDL execution, the commit, and the post-creation verification (and the
listing queries on its success path) all succeed. -/
theorem access_logs_script_exit_codes (env : DBEnv) :
    ((runScript env).exitCode = 0 ∨ (runScript env).exitCode = 1) ∧
    ((runScript env).exitCode = 0 ↔ allStepsSucceed env = true) := by
  rcases runScript_outcome_cases env with ⟨hs, h0, _⟩ | ⟨hs, h1, _⟩
  · exact ⟨Or.inl h0, by simp [h0, hs]⟩
  · exact ⟨Or.inr h1, by simp [h1, hs]⟩

/-- C2: When the DDL and commit succeeded but `SHOW TABLES LIKE
'access_logs'` returns an empty result, the script prints the error line
and exits with status 1. -/
theorem verification_failure_exits_one (env : DBEnv)
    (hc : env.connect = none) (hcu : env.mkCursor = none)
    (hec : env.executeCreate = none) (hcm : env.commit = none)
    (hes : env.executeShow = none) (hfs : env.fetchShow = Except.ok []) :
    "❌ ERROR: Table not found after creation!" ∈ (runScript env).output ∧
    (runScript env).exitCode = 1 := by
  simp [runScript, tryBody, handleTop, hc, hcu, hec, hcm, hes, hfs,
    catchesMySQLError, catchesException, uncaughtExitCode]

theorem verification_failure_exits_one_witness :
    "❌ ERROR: Table not found after creation!" ∈ (runScript envEmptyShow).output ∧
    (runScript envEmptyShow).exitCode = 1 :=
  verification_failure_exits_one envEmptyShow rfl rfl rfl rfl rfl rfl

/-- C4: The script performs the external calls in exactly one linear
order: every run's trace is a prefix of `fullTrace` (connect, cursor,
execute DDL, commit, verification query and fetch, listing query and
fetch, close cursor, close connection), `fullTrace` repeats no step, and a
fully successful run performs exactly `fullTrace`. -/
theorem script_linear_sequence (env : DBEnv) :
    (runScript env).trace <+: fullTrace ∧ fullTrace.Nodup ∧
    (allStepsSucceed env = true → (runScript env).trace = fullTrace) := by
  rcases runScript_outcome_cases env with ⟨hs, _, ht⟩ | ⟨hs, _, hp, _⟩
  · exact ⟨ht ▸ List.prefix_refl _, by decide, fun _ => ht⟩
  · exact ⟨hp, by decide, fun h => by simp [h] at hs⟩

theorem script_linear_sequence_witness :
    allStepsSucceed envOk = true ∧ (runScript envOk).trace = fullTrace :=
  ⟨by decide, (script_linear_sequence envOk).2.2 (by decide)⟩

/-- C5: The two top-level handlers distinguish the error classes: a
`mysql.connector.Error` escaping the body is printed with the
database-specific prefix and the process exits 1; any other `Exception`
is printed with the generic prefix and the process exits 1; in particular
a connection failure (invalid credentials) yields the database-specific
message, not the generic one. -/
theorem error_classes_distinguished (env : DBEnv) (m : String) :
    ((tryBody env).exc = PyExc.mysqlError m →
      (runScript env).exitCode = 1 ∧
      (runScript env).output =
        ["🔧 Connecting to production database..."] ++ (tryBody env).output ++
          ["❌ MySQL Error: " ++ m]) ∧
    ((tryBody env).exc = PyExc.otherExc m →
      (runScript env).exitCode = 1 ∧
      (runScript env).output =
        ["🔧 Connecting to production database..."] ++ (tryBody env).output ++
          ["💥 Error: " ++ m]) ∧
    (env.connect = some (LibExc.mysqlError m) →
      (runScript env).exitCode = 1 ∧
      (runScript env).output =
        ["🔧 Connecting to production database...", "❌ MySQL Error: " ++ m]) := by
  refine ⟨fun h => ?_, fun h => ?_, fun h => ?_⟩
  · simp [runScript, handleTop, h, catchesMySQLError, catchesException, excMessage]
  · simp [runScript, handleTop, h, catchesMySQLError, catchesException, excMessage]
  · simp [runScript, tryBody, handleTop, h, LibExc.toPyExc, catchesMySQLError,
      catchesException, excMessage]

theorem error_classes_distinguished_witness :
    (runScript envBadCreds).exitCode = 1 ∧
    (runScript envBadCreds).output =
      ["🔧 Connecting to production database...",
       "❌ MySQL Error: 1045 (28000): Access denied for user tshlaadmin"] :=
  (error_classes_distinguished envBadCreds
    "1045 (28000): Access denied for user tshlaadmin").2.2 rfl

/-- C8: On the success path (every call succeeds and the verification
query is non-empty), the cursor and the connection are both released
before the process exits with code 0. -/
theorem success_releases_resources (env : DBEnv)
    (h : allStepsSucceed env = true) :
    (runScript env).exitCode = 0 ∧
    ScriptStep.closeCursor ∈ (runScript env).trace ∧
    ScriptStep.closeConnection ∈ (runScript env).trace := by
  rcases runScript_outcome_cases env with ⟨_, h0, ht⟩ | ⟨hs, _⟩
  · exact ⟨h0, by rw [ht]; decide, by rw [ht]; decide⟩
  · simp [h] at hs

theorem success_releases_resources_witness :
    (runScript envOk).exitCode = 0 ∧
    ScriptStep.closeCursor ∈ (runScript envOk).trace ∧
    ScriptStep.closeConnection ∈ (runScript envOk).trace :=
  success_releases_resources envOk (by decide)

/-- C9: `sys.exit` raises `SystemExit`, which neither `except
mysql.connector.Error` nor `except Exception` intercepts; on the
verification-failure path the body ends in `SystemExit 1` and the process
exits with exactly 1, with no handler line appended to the output. -/
theorem sys_exit_not_intercepted (env : DBEnv)
    (hc : env.connect = none) (hcu : env.mkCursor = none)
    (hec : env.executeCreate = none) (hcm : env.commit = none)
    (hes : env.executeShow = none) (hfs : env.fetchShow = Except.ok []) :
    catchesException (PyExc.systemExit 1) = false ∧
    catchesException (PyExc.systemExit 0) = false ∧
    catchesMySQLError (PyExc.systemExit 1) = false ∧
    (tryBody env).exc = PyExc.systemExit 1 ∧
    (runScript env).exitCode = 1 ∧
    (runScript env).output =
      ["🔧 Connecting to production database...",
       "✅ Connected successfully!", "📝 Creating access_logs table...",
       "✅ Table created successfully!",
       "❌ ERROR: Table not found after creation!"] := by
  refine ⟨rfl, rfl, rfl, ?_, ?_, ?_⟩ <;>
    simp [runScript, tryBody, handleTop, hc, hcu, hec, hcm, hes, hfs,
      catchesMySQLError, catchesException, uncaughtExitCode]

theorem sys_exit_not_intercepted_witness :
    (tryBody envEmptyShow).exc = PyExc.systemExit 1 ∧
    (runScript envEmptyShow).exitCode = 1 :=
  ⟨(sys_exit_not_intercepted envEmptyShow rfl rfl rfl rfl rfl rfl).2.2.2.1,
   (sys_exit_not_intercepted envEmptyShow rfl rfl rfl rfl rfl rfl).2.2.2.2.1⟩

/-- C10: Every run that exits with a non-zero code — the
verification-failure branch and both exception handlers — terminates
without having closed the cursor or the connection; conversely a run that
reaches either `close` call exits 0. -/
theorem failure_paths_skip_close (env : DBEnv) :
    ((runScript env).exitCode ≠ 0 →
      ScriptStep.closeCursor ∉ (runScript env).trace ∧
      ScriptStep.closeConnection ∉ (runScript env).trace) ∧
    (ScriptStep.closeCursor ∈ (runScript env).trace ∨
      ScriptStep.closeConnection ∈ (runScript env).trace →
      (runScript env).exitCode = 0) := by
  rcases runScript_outcome_cases env with ⟨_, h0, _⟩ | ⟨_, _, _, hcc, hcn⟩
  · exact ⟨fun h => absurd h0 h, fun _ => h0⟩
  · refine ⟨fun _ => ⟨hcc, hcn⟩, ?_⟩
    rintro (h | h)
    · exact absurd h hcc
    · exact absurd h hcn

theorem failure_paths_skip_close_witness :
    ScriptStep.closeCursor ∉ (runScript envEmptyShow).trace ∧
    ScriptStep.closeConnection ∉ (runScript envEmptyShow).trace :=
  (failure_paths_skip_close envEmptyShow).1 (by decide)

/-- C3: The creation statement is conditioned on existence, so running the
script against a database where `access_logs` already exists leaves the
catalog untouched (structure and data) and exits 0; and after any run that
exits 0, a second successive run also exits 0 and changes nothing. -/
theorem create_table_idempotent (s : DBState) :
    (hasTable s "access_logs" = true →
      execCreateAccessLogs s = Except.ok s ∧ (runOnDB s).2 = s ∧
      (runOnDB s).1.exitCode = 0) ∧
    ((runOnDB s).1.exitCode = 0 →
      (runOnDB (runOnDB s).2).1.exitCode = 0 ∧
      (runOnDB (runOnDB s).2).2 = (runOnDB s).2) := by
  refine ⟨runOnDB_hasTable s, fun h0 => ?_⟩
  have hht := runOnDB_exit0_hasTable s h0
  have h2 := runOnDB_hasTable (dbStateAfter s) hht
  exact ⟨h2.2.2, h2.2.1⟩

theorem create_table_idempotent_witness :
    (execCreateAccessLogs dbProvisioned = Except.ok dbProvisioned ∧
      (runOnDB dbProvisioned).2 = dbProvisioned ∧
      (runOnDB dbProvisioned).1.exitCode = 0) ∧
    ((runOnDB (runOnDB initialDB).2).1.exitCode = 0 ∧
      (runOnDB (runOnDB initialDB).2).2 = (runOnDB initialDB).2) :=
  ⟨(create_table_idempotent dbProvisioned).1 (by decide),
   (create_table_idempotent initialDB).2 (by decide)⟩

/-- C6: On the success path, the printed listing holds one line per
`DESCRIBE` row, and the line's nullability text is `NOT NULL` exactly when
the row's `Null` flag equals `NO`, and `NULL` otherwise, alongside the
column's name and type. -/
theorem describe_nullability_listing (env : DBEnv) (rows : List String)
    (cols : List DescRow)
    (hc : env.connect = none) (hcu : env.mkCursor = none)
    (hec : env.executeCreate = none) (hcm : env.commit = none)
    (hes : env.executeShow = none) (hfs : env.fetchShow = Except.ok rows)
    (hne : rows.isEmpty = false)
    (hed : env.executeDescribe = none) (hfd : env.fetchDescribe = Except.ok cols) :
    (∀ col ∈ cols, descLine col ∈ (runScript env).output) ∧
    (∀ flag : String, (nullFlagText flag = "NOT NULL" ↔ flag = "NO") ∧
      (nullFlagText flag = "NULL" ↔ ¬ flag = "NO")) ∧
    (∀ col : DescRow,
      descLine col =
        "  - " ++ col.f0 ++ ": " ++ col.f1 ++ " " ++ nullFlagText col.f2) := by
  have hout : (runScript env).output =
      ["🔧 Connecting to production database...", "✅ Connected successfully!",
       "📝 Creating access_logs table...", "✅ Table created successfully!",
       "📊 Verification: Table exists! Found " ++ toString rows.length ++ " match(es)",
       "\n📋 Table structure:"] ++ cols.map descLine ++
      ["\n✨ Done! The access_logs table is now ready."] := by
    simp [runScript, tryBody, handleTop, hc, hcu, hec, hcm, hes, hfs, hne, hed,
      hfd, catchesMySQLError, catchesException, uncaughtExitCode]
  refine ⟨fun col hcol => ?_, fun flag => ?_, fun col => rfl⟩
  · rw [hout]
    exact List.mem_append_left _ (List.mem_append_right _
      (List.mem_map_of_mem _ hcol))
  · by_cases h : flag = "NO" <;> simp [nullFlagText, h]

theorem describe_nullability_listing_witness :
    descLine ⟨"id", "int", "NO"⟩ ∈ (runScript envOk).output ∧
    (nullFlagText "YES" = "NULL" ↔ ¬ ("YES" : String) = "NO") :=
  ⟨(describe_nullability_listing envOk ["access_logs"]
      [⟨"id", "int", "NO"⟩, ⟨"ip_address", "varchar(45)", "YES"⟩]
      rfl rfl rfl rfl rfl rfl rfl rfl rfl).1 _ (by decide),
   ((describe_nullability_listing envOk ["access_logs"]
      [⟨"id", "int", "NO"⟩, ⟨"ip_address", "varchar(45)", "YES"⟩]
      rfl rfl rfl rfl rfl rfl rfl rfl rfl).2.1 "YES").2⟩

/-- C7: On a successful run against a database where `pump_users` exists
and `access_logs` does not yet, the printed listing enumerates exactly the
seven schema columns, each annotated `NOT NULL` or `NULL` per the
declaration. -/
theorem listing_seven_columns (s : DBState)
    (h1 : hasTable s "access_logs" = false)
    (h2 : hasTable s "pump_users" = true) :
    (runOnDB s).1.exitCode = 0 ∧
    (runOnDB s).1.output =
      ["🔧 Connecting to production database...",
       "✅ Connected successfully!",
       "📝 Creating access_logs table...",
       "✅ Table created successfully!",
       "📊 Verification: Table exists! Found 1 match(es)",
       "\n📋 Table structure:",
       "  - id: int NOT NULL",
       "  - user_id: int NOT NULL",
       "  - access_type: varchar(50) NOT NULL",
       "  - payment_amount_cents: int NULL",
       "  - ip_address: varchar(45) NULL",
       "  - user_agent: text NULL",
       "  - created_at: timestamp NULL",
       "\n✨ Done! The access_logs table is now ready."] := by
  have hexec : execCreateAccessLogs s =
      Except.ok ⟨s.tables ++ [("access_logs", ⟨accessLogsColumns, []⟩)]⟩ := by
    simp [execCreateAccessLogs, h1, h2]
  have hafter : dbStateAfter s =
      ⟨s.tables ++ [("access_logs", ⟨accessLogsColumns, []⟩)]⟩ := by
    simp [dbStateAfter, hexec]
  have hshow : showTablesLike (dbStateAfter s) "access_logs" = ["access_logs"] := by
    rw [hafter]
    simp [showTablesLike, hasTable]
  have hlook := lookupTable_append_self s "access_logs" ⟨accessLogsColumns, []⟩ h1
  have hdesc : describeRows (dbStateAfter s) "access_logs" =
      accessLogsColumns.map
        (fun c => ⟨c.name, c.sqlType, if c.notNull then "NO" else "YES"⟩) := by
    rw [hafter]
    simp [describeRows, hlook]
  have henv : dbEnv s =
      { connect := none, mkCursor := none, executeCreate := none, commit := none,
        executeShow := none, fetchShow := .ok ["access_logs"],
        executeDescribe := none,
        fetchDescribe := .ok (accessLogsColumns.map
          (fun c => ⟨c.name, c.sqlType, if c.notNull then "NO" else "YES"⟩)) } := by
    simp [dbEnv, hexec, hshow, hdesc]
  have hrun : (runOnDB s).1 = runScript (dbEnv s) := rfl
  rw [hrun, henv]
  exact ⟨by decide, by decide⟩

theorem listing_seven_columns_witness :
    (runOnDB initialDB).1.exitCode = 0 ∧
    (runOnDB initialDB).1.output =
      ["🔧 Connecting to production database...",
       "✅ Connected successfully!",
       "📝 Creating access_logs table...",
       "✅ Table created successfully!",
       "📊 Verification: Table exists! Found 1 match(es)",
       "\n📋 Table structure:",
       "  - id: int NOT NULL",
       "  - user_id: int NOT NULL",
       "  - access_type: varchar(50) NOT NULL",
       "  - payment_amount_cents: int NULL",
       "  - ip_address: varchar(45) NULL",
       "  - user_agent: text NULL",
       "  - created_at: timestamp NULL",
       "\n✨ Done! The access_logs table is now ready."] :=
  listing_seven_columns initialDB (by decide) (by decide)
